import Mathlib

/-!
# LocalLink page script (static/js/script.js)

A shallow embedding of the page script: the document is a heap of nodes addressed by index,
event listeners and timer callbacks are functions on the page state, and the host services the
script calls (markup parsing for innerHTML, selector matching, timers) are modelled for the
part of their input language that the script and the statements below exercise.

Conventions of the model:
* an element reference held by the script is the index of the node in the heap; nodes are never
  freed, so a reference stays good after the element leaves the document;
* reading innerHTML gives the markup that was last assigned to the element (or that the page
  author wrote), assigning it parses the markup into new nodes;
* style.transform holds the string that was assigned;
* a function of the host that meets input outside the modelled part answers none (tokenizer,
  tree construction) or unmodelled (selectors), never a made-up result;
* the function simulateLoading (lines 29-34) is never called by the script and is left out.
-/

namespace LocalLink

/-- One node of the document: an element, or a text node (tag "#text"). -/
structure Node where
  tag : String
  attrs : List (String × String)
  data : String
  innerHTML : String
  parent : Option Nat
  children : List Nat
  disabled : Bool
  style : List (String × String)
deriving DecidableEq, Repr

/-- A fresh element without attributes, content or parent. -/
def Node.element (tag : String) (attrs : List (String × String)) : Node :=
  { tag := tag, attrs := attrs, data := "", innerHTML := "", parent := none,
    children := [], disabled := false, style := [] }

/-- A fresh text node. -/
def Node.textNode (data : String) : Node :=
  { tag := "#text", attrs := [], data := data, innerHTML := "", parent := none,
    children := [], disabled := false, style := [] }

/-! ## Host HTML tokenizer (modelled subset) -/

/-- A token of the markup tokenizer: one character of text, a start tag with its attributes, or
an end tag. -/
inductive Token where
  | char (c : Char)
  | startTag (name : String) (attrs : List (String × String))
  | endTag (name : String)
deriving DecidableEq, Repr

/-- The tokenizer states that the modelled markup goes through. -/
inductive TokMode where
  | data
  | tagOpen
  | endTagOpen
  | tagName
  | beforeAttrName
  | attrName
  | afterAttrName
  | beforeAttrValue
  | attrValueDQ
  | afterAttrValueQ
deriving DecidableEq, Repr

/-- The tokenizer: its state, and the tag and attribute being read. -/
structure TokState where
  mode : TokMode
  isEnd : Bool
  name : List Char
  attrs : List (String × String)
  attrName : List Char
  attrValue : List Char
deriving DecidableEq, Repr

/-- The data state, with no tag being read. -/
def TokState.start : TokState :=
  { mode := .data, isEnd := false, name := [], attrs := [], attrName := [], attrValue := [] }

/-- White space inside a tag: space, line feed, tab, form feed. -/
def isHtmlSpace (c : Char) : Bool :=
  c = ' ' || c = '\n' || c = '\t' || c = Char.ofNat 12

/-- The characters the model accepts in tag and attribute names. -/
def isNameChar (c : Char) : Bool :=
  c.isAlphanum || c = '-' || c = '_'

/-- The tag token completed by the tokenizer state; duplicate attribute names are not modelled. -/
def TokState.emitTag (st : TokState) (attrs : List (String × String)) : Option (TokState × List Token) :=
  if (attrs.map Prod.fst).Nodup then
    some (TokState.start,
      [if st.isEnd then Token.endTag (String.mk st.name) else Token.startTag (String.mk st.name) attrs])
  else none

/-- The attributes read so far, with the one being read added. -/
def TokState.withAttr (st : TokState) : List (String × String) :=
  st.attrs ++ [(String.mk st.attrName, String.mk st.attrValue)]

/-- One step of the tokenizer. Modelled: text without character references, carriage returns
and null characters; start and end tags; attributes without value or with a value in double
quotes. Anything else (comments, self-closing tags, other quoting, a less-than sign that opens
no tag) gives none. -/
def tokStep (st : TokState) (c : Char) : Option (TokState × List Token) :=
  match st.mode with
  | .data =>
    if c = '<' then some ({ st with mode := .tagOpen }, [])
    else if c = '&' || c = '\r' || c = Char.ofNat 0 then none
    else some (st, [Token.char c])
  | .tagOpen =>
    if c = '/' then some ({ st with mode := .endTagOpen }, [])
    else if c.isAlpha then
      some ({ TokState.start with mode := .tagName, isEnd := false, name := [c.toLower] }, [])
    else none
  | .endTagOpen =>
    if c.isAlpha then
      some ({ TokState.start with mode := .tagName, isEnd := true, name := [c.toLower] }, [])
    else none
  | .tagName =>
    if isHtmlSpace c then some ({ st with mode := .beforeAttrName }, [])
    else if c = '>' then st.emitTag []
    else if isNameChar c then some ({ st with name := st.name ++ [c.toLower] }, [])
    else none
  | .beforeAttrName =>
    if isHtmlSpace c then some (st, [])
    else if c = '>' then st.emitTag st.attrs
    else if isNameChar c then
      some ({ st with mode := .attrName, attrName := [c.toLower], attrValue := [] }, [])
    else none
  | .attrName =>
    if isHtmlSpace c then some ({ st with mode := .afterAttrName }, [])
    else if c = '=' then some ({ st with mode := .beforeAttrValue }, [])
    else if c = '>' then st.emitTag st.withAttr
    else if isNameChar c then some ({ st with attrName := st.attrName ++ [c.toLower] }, [])
    else none
  | .afterAttrName =>
    if isHtmlSpace c then some (st, [])
    else if c = '=' then some ({ st with mode := .beforeAttrValue }, [])
    else if c = '>' then st.emitTag st.withAttr
    else if isNameChar c then
      some ({ st with mode := .attrName, attrs := st.withAttr, attrName := [c.toLower],
                      attrValue := [] }, [])
    else none
  | .beforeAttrValue =>
    if isHtmlSpace c then some (st, [])
    else if c = '"' then some ({ st with mode := .attrValueDQ }, [])
    else none
  | .attrValueDQ =>
    if c = '"' then
      some ({ st with mode := .afterAttrValueQ, attrs := st.withAttr, attrName := [],
                      attrValue := [] }, [])
    else if c = '&' || c = '\r' || c = Char.ofNat 0 then none
    else some ({ st with attrValue := st.attrValue ++ [c] }, [])
  | .afterAttrValueQ =>
    if isHtmlSpace c then some ({ st with mode := .beforeAttrName }, [])
    else if c = '>' then st.emitTag st.attrs
    else none

/-- Run the tokenizer over a stretch of input, collecting the tokens emitted. -/
def tokScan : TokState → List Char → Option (TokState × List Token)
  | st, [] => some (st, [])
  | st, c :: cs =>
    match tokStep st c with
    | none => none
    | some (st1, out) =>
      match tokScan st1 cs with
      | none => none
      | some (st2, rest) => some (st2, out ++ rest)

/-- Tokenize a whole markup string; input ending inside a tag is not modelled. -/
def tokenize (markup : String) : Option (List Token) :=
  match tokScan TokState.start markup.data with
  | some (st, toks) => if st.mode = .data then some toks else none
  | none => none


/-! ## Host HTML tree construction (modelled subset) -/

/-- Replace node i by f applied to it; nothing happens when i is not a node. -/
def modifyNode (nodes : List Node) (i : Nat) (f : Node → Node) : List Node :=
  match nodes[i]? with
  | some n => nodes.set i (f n)
  | none => nodes

/-- The tag of node i (the empty string when i is not a node). -/
def tagOf (nodes : List Node) (i : Nat) : String :=
  match nodes[i]? with
  | some n => n.tag
  | none => ""

/-- The tree under construction: index 0 is the fragment root, the stack of open elements has
the current node first and the root last. -/
structure Builder where
  nodes : List Node
  stack : List Nat
deriving DecidableEq, Repr

/-- Tree construction starts with the fragment root alone. -/
def Builder.start : Builder :=
  { nodes := [Node.element "html" []], stack := [0] }

/-- The current node: the open element on top of the stack. -/
def Builder.current (b : Builder) : Nat := b.stack.headD 0

/-- Insert a character: extend the text node that ends the current node, or add a new one. -/
def Builder.insertChar (b : Builder) (c : Char) : Builder :=
  let cur := b.current
  let last : Option Nat :=
    match b.nodes[cur]? with
    | some n => n.children.getLast?
    | none => none
  match last with
  | some k =>
    if tagOf b.nodes k = "#text" then
      { b with nodes := modifyNode b.nodes k (fun n => { n with data := n.data.push c }) }
    else
      let k1 := b.nodes.length
      { b with nodes := modifyNode (b.nodes ++ [{ Node.textNode (String.singleton c) with parent := some cur }])
                          cur (fun n => { n with children := n.children ++ [k1] }) }
  | none =>
    let k1 := b.nodes.length
    { b with nodes := modifyNode (b.nodes ++ [{ Node.textNode (String.singleton c) with parent := some cur }])
                        cur (fun n => { n with children := n.children ++ [k1] }) }

/-- Insert an element for a start tag and make it the current node. -/
def Builder.insertElement (b : Builder) (name : String) (attrs : List (String × String)) : Builder :=
  let cur := b.current
  let k := b.nodes.length
  let el : Node := { Node.element name attrs with
                     parent := some cur, disabled := attrs.any (fun a => a.1 = "disabled") }
  { nodes := modifyNode (b.nodes ++ [el]) cur (fun n => { n with children := n.children ++ [k] }),
    stack := k :: b.stack }

/-- Pop open elements up to and including the nearest one with the given tag. -/
def popThrough (nodes : List Node) (name : String) : List Nat → List Nat
  | [] => []
  | i :: rest => if tagOf nodes i = name then rest else popThrough nodes name rest

/-- Whether an element with the given tag is open (with the modelled elements that is the same
as being in scope: only the root ends a scope). -/
def Builder.hasOpen (b : Builder) (name : String) : Bool :=
  b.stack.any (fun i => tagOf b.nodes i = name)

/-- Whether closing the nearest open element with the given tag also closes an open i element
(the host then rebuilds formatting elements, which is outside the model). -/
def Builder.popsFormatting (b : Builder) (name : String) : Bool :=
  (b.stack.takeWhile (fun k => tagOf b.nodes k != name)).any (fun k => tagOf b.nodes k = "i")

/-- One step of tree construction in the "in body" insertion mode, for the elements div, span,
button and i; none marks a token outside the modelled subset. The fragment root stands for the
html element at the bottom of the stack. -/
def buildStep (b : Builder) : Token → Option Builder
  | .char c => some (b.insertChar c)
  | .startTag name attrs =>
    if attrs.any (fun a => a.1 = "style") then none
    else if name = "div" || name = "span" || name = "i" then some (b.insertElement name attrs)
    else if name = "button" then
      if b.hasOpen "button" then
        if b.popsFormatting "button" then none
        else some (Builder.insertElement { b with stack := popThrough b.nodes "button" b.stack }
                     name attrs)
      else some (b.insertElement name attrs)
    else none
  | .endTag name =>
    if name = "div" || name = "button" then
      if b.hasOpen name then
        if b.popsFormatting name then none
        else some { b with stack := popThrough b.nodes name b.stack }
      else some b
    else if name = "span" then
      if tagOf b.nodes b.current = "span" then some { b with stack := b.stack.tail }
      else if tagOf b.nodes b.current = "i" then none
      else some b
    else if name = "i" then
      if tagOf b.nodes b.current = "i" then some { b with stack := b.stack.tail } else none
    else none

/-- Tree construction over a list of tokens. -/
def buildAll : Builder → List Token → Option Builder
  | b, [] => some b
  | b, t :: ts =>
    match buildStep b t with
    | none => none
    | some b1 => buildAll b1 ts

/-- Parse markup as the content of an element: the nodes of the fragment, the root first. -/
def parseFragment (markup : String) : Option (List Node) :=
  match tokenize markup with
  | none => none
  | some toks =>
    match buildAll Builder.start toks with
    | none => none
    | some b => some b.nodes


/-! ## Document operations -/

/-- Value of an attribute, as getAttribute returns it (none for null). -/
def Node.getAttribute (n : Node) (name : String) : Option String :=
  n.attrs.lookup name

/-- Whether the node is an element (not a text node, not the document node). -/
def Node.isElement (n : Node) : Bool :=
  n.tag != "#text" && n.tag != "#document"

/-- The parentNode of a node. -/
def parentNode (nodes : List Node) (i : Nat) : Option Nat :=
  match nodes[i]? with
  | some n => n.parent
  | none => none

/-- The parentElement of a node: its parent when that parent is an element. -/
def parentElement (nodes : List Node) (i : Nat) : Option Nat :=
  match parentNode nodes i with
  | some p => if tagOf nodes p = "#document" then none else some p
  | none => none

/-- The remove() method: detach a node from its parent; no effect on a node without parent. -/
def removeNode (nodes : List Node) (i : Nat) : List Node :=
  match parentNode nodes i with
  | some p =>
    modifyNode (modifyNode nodes p (fun n => { n with children := n.children.erase i }))
      i (fun n => { n with parent := none })
  | none => nodes

/-- The appendChild() method: move the child to the end of the parent's children. -/
def appendChild (nodes : List Node) (p c : Nat) : List Node :=
  modifyNode (modifyNode (removeNode nodes c) p (fun n => { n with children := n.children ++ [c] }))
    c (fun n => { n with parent := some p })

/-- Position in the document heap of a fragment node grafted under target. -/
def remap (target base i : Nat) : Nat :=
  if i = 0 then target else base + (i - 1)

/-- A fragment node with its links moved to heap positions. -/
def graftNode (target base : Nat) (n : Node) : Node :=
  { n with parent := n.parent.map (remap target base),
           children := n.children.map (remap target base) }

/-- Detach the listed nodes from their parent. -/
def detachAll (nodes : List Node) (cs : List Nat) : List Node :=
  cs.foldl (fun acc c => modifyNode acc c (fun n => { n with parent := none })) nodes

/-- The nodes a fragment adds to the heap when it is parsed into target, and the children target
gets. Markup outside the modelled subset adds no tracked nodes. -/
def graftedNodes (target base : Nat) (markup : String) : List Node × List Nat :=
  match parseFragment markup with
  | some (fragRoot :: rest) =>
    (rest.map (graftNode target base), fragRoot.children.map (remap target base))
  | _ => ([], [])

/-- The innerHTML setter: the old children are detached and the parsed fragment takes their
place. The markup is kept as the value the innerHTML getter returns. -/
def setInnerHTML (nodes : List Node) (target : Nat) (markup : String) : List Node :=
  match nodes[target]? with
  | none => nodes
  | some el =>
    let g := graftedNodes target nodes.length markup
    modifyNode (detachAll nodes el.children ++ g.1) target
      (fun n => { n with innerHTML := markup, children := g.2 })

/-- Descendants of a node in tree order, to the given depth. -/
def descendantsAux (nodes : List Node) : Nat → Nat → List Nat
  | 0, _ => []
  | fuel + 1, i =>
    match nodes[i]? with
    | some n => n.children.flatMap (fun c => c :: descendantsAux nodes fuel c)
    | none => []

/-- Descendants of a node in tree order. -/
def descendants (nodes : List Node) (i : Nat) : List Nat :=
  descendantsAux nodes nodes.length i

/-- The textContent of a node: the data of its text descendants, in tree order. -/
def textContent (nodes : List Node) (i : Nat) : String :=
  String.join ((descendants nodes i).map (fun d =>
    match nodes[d]? with
    | some n => if n.tag = "#text" then n.data else ""
    | none => ""))

/-- Split characters into the words between white space. -/
def splitWords : List Char → List Char → List String
  | cur, [] => if cur = [] then [] else [String.mk cur]
  | cur, c :: cs =>
    if c = ' ' || c = '\n' || c = '\t' || c = '\r' || c = Char.ofNat 12 then
      if cur = [] then splitWords [] cs else String.mk cur :: splitWords [] cs
    else splitWords (cur ++ [c]) cs

/-- Class names of an element: the class attribute split at white space. -/
def Node.classList (n : Node) : List String :=
  splitWords [] ((n.getAttribute "class").getD "").data

/-- Whether the element has the class name. -/
def Node.hasClass (n : Node) (c : String) : Bool :=
  n.classList.contains c

/-- First node of a list of candidates that satisfies a predicate on nodes. -/
def firstMatch (nodes : List Node) (p : Node → Bool) (cands : List Nat) : Option Nat :=
  cands.find? (fun i =>
    match nodes[i]? with
    | some n => n.isElement && p n
    | none => false)

/-- The candidates that are elements satisfying a predicate, in the order given. -/
def allMatches (nodes : List Node) (p : Node → Bool) (cands : List Nat) : List Nat :=
  cands.filter (fun i =>
    match nodes[i]? with
    | some n => n.isElement && p n
    | none => false)

/-- Ancestors of a node, nearest first, to the given depth. -/
def ancestorsAux (nodes : List Node) : Nat → Nat → List Nat
  | 0, _ => []
  | fuel + 1, i =>
    match parentNode nodes i with
    | some p => p :: ancestorsAux nodes fuel p
    | none => []

/-- Ancestors of a node, nearest first. -/
def ancestors (nodes : List Node) (i : Nat) : List Nat :=
  ancestorsAux nodes nodes.length i

/-! ## Page state -/

/-- A timer callback of the script, with the values its closure captured. -/
inductive Callback where
  | revertButton (submitBtn : Nat) (originalText : String)
  | removeNotification (notification : Nat)
deriving DecidableEq, Repr

/-- A pending timer: the clock value at which it is due, and its callback. -/
structure Timer where
  due : Nat
  callback : Callback
deriving DecidableEq, Repr

/-- One call of scrollIntoView: the element it was called on and the behavior option. -/
structure ScrollCall where
  target : Nat
  behavior : String
deriving DecidableEq, Repr

/-- The page: the node heap, the index of the document node, the clock in milliseconds, the
pending timers in the order they were scheduled, the console records and the scrollIntoView
calls made so far. -/
structure State where
  nodes : List Node
  doc : Nat
  now : Nat
  timers : List Timer
  console : List (List String)
  scrolls : List ScrollCall
deriving DecidableEq, Repr

/-- The exceptions that runs of the script can end in. -/
inductive JsError where
  | syntaxError
  | typeError
deriving DecidableEq, Repr

/-- What running a listener or function leaves behind: the page state, whether the event's
default action was prevented, and the exception that ended the run, if any. -/
structure Outcome where
  state : State
  defaultPrevented : Bool
  error : Option JsError
deriving DecidableEq, Repr

/-- The element document.documentElement. -/
def documentElement (s : State) : Option Nat :=
  match s.nodes[s.doc]? with
  | some d => firstMatch s.nodes (fun _ => true) d.children
  | none => none

/-- The element document.body: the first body child of the document element. -/
def documentBody (s : State) : Option Nat :=
  match documentElement s with
  | some h =>
    match s.nodes[h]? with
    | some hn => firstMatch s.nodes (fun n => n.tag = "body" || n.tag = "frameset") hn.children
    | none => none
  | none => none

/-- The setTimeout call: the callback becomes due after the delay. -/
def setTimeout (s : State) (cb : Callback) (delay : Nat) : State :=
  { s with timers := s.timers ++ [{ due := s.now + delay, callback := cb }] }

/-! ## Selectors -/

/-- How the host reads a selector string. -/
inductive SelectorParse where
  | idSelector (name : String)
  | syntaxError
  | unmodelled
deriving DecidableEq, Repr

/-- The characters the model accepts at the start of an identifier. -/
def isIdentStart (c : Char) : Bool := c.isAlpha || c = '_'

/-- The characters the model accepts inside an identifier. -/
def isIdentChar (c : Char) : Bool := c.isAlphanum || c = '-' || c = '_'

/-- Reading of a selector string that starts with a hash sign: an identifier after the sign
makes an id selector; nothing, or a name starting with a digit, is not a selector. Other
strings are outside the model. -/
def parseSelector (sel : String) : SelectorParse :=
  match sel.data with
  | ['#'] => .syntaxError
  | '#' :: c :: cs =>
    if (c :: cs).all isIdentChar then
      if isIdentStart c then .idSelector (String.mk (c :: cs))
      else if c.isDigit then .syntaxError
      else .unmodelled
    else .unmodelled
  | _ => .unmodelled

/-- Elements selected by a[href^="#"] in the document. -/
def hashAnchors (s : State) : List Nat :=
  allMatches s.nodes
    (fun n => n.tag = "a" && ((n.getAttribute "href").getD "").data.head? = some '#')
    (descendants s.nodes s.doc)

/-- Elements selected by .card in the document. -/
def cards (s : State) : List Nat :=
  allMatches s.nodes (fun n => n.hasClass "card") (descendants s.nodes s.doc)

/-- Elements selected by form in the document. -/
def forms (s : State) : List Nat :=
  allMatches s.nodes (fun n => n.tag = "form") (descendants s.nodes s.doc)

/-- Elements selected by .rating-stars .star in the document. -/
def stars (s : State) : List Nat :=
  allMatches s.nodes (fun n => n.hasClass "star") ((descendants s.nodes s.doc).filter (fun i =>
    (ancestors s.nodes i).any (fun a =>
      match s.nodes[a]? with
      | some an => an.isElement && an.hasClass "rating-stars"
      | none => false)))

/-- Listener of click on an anchor (lines 6-14); none when the href is a selector outside the
model. -/
def anchorClick (s : State) (this : Nat) : Option Outcome :=
  let href : String :=
    match s.nodes[this]? with
    | some n => (n.getAttribute "href").getD "null"
    | none => "null"
  match parseSelector href with
  | .unmodelled => none
  | .syntaxError => some { state := s, defaultPrevented := true, error := some .syntaxError }
  | .idSelector name =>
    match firstMatch s.nodes (fun n => n.getAttribute "id" = some name) (descendants s.nodes s.doc) with
    | some target =>
      some { state := { s with scrolls := s.scrolls ++ [{ target := target, behavior := "smooth" }] },
             defaultPrevented := true, error := none }
    | none => some { state := s, defaultPrevented := true, error := none }

/-- Assignment to one property of an inline style: the declaration of the property is replaced,
or added at the end when there is none. -/
def setStyleProperty : List (String × String) → String → String → List (String × String)
  | [], prop, value => [(prop, value)]
  | d :: ds, prop, value =>
    if d.1 = prop then (prop, value) :: ds else d :: setStyleProperty ds prop value

/-- Listener of mouseenter on a card (lines 19-21). -/
def cardMouseEnter (s : State) (this : Nat) : State :=
  { s with nodes := modifyNode s.nodes this (fun n =>
      { n with style := setStyleProperty n.style "transform" "translateY(-8px) scale(1.02)" }) }

/-- Listener of mouseleave on a card (lines 23-25). -/
def cardMouseLeave (s : State) (this : Nat) : State :=
  { s with nodes := modifyNode s.nodes this (fun n =>
      { n with style := setStyleProperty n.style "transform" "translateY(0) scale(1)" }) }

/-- Listener of click on a rating star (lines 56-62); an empty attribute value is falsy. -/
def starClick (s : State) (this : Nat) : State :=
  let rating : Option String :=
    match s.nodes[this]? with
    | some n => n.getAttribute "data-rating"
    | none => none
  match rating with
  | some r => if r ≠ "" then { s with console := s.console ++ [["Rating submitted:", r]] } else s
  | none => s

/-- The template of lines 69-74 up to the message. -/
def markupBefore : String :=
  "\n            <div class=\"d-flex justify-content-between align-items-center\">\n                <span>"

/-- The template of lines 69-74 after the message. -/
def markupAfter : String :=
  "</span>\n                <button type=\"button\" class=\"btn-close\" onclick=\"this.parentElement.parentElement.remove()\"></button>\n            </div>\n        "

/-- The markup assigned to the banner's innerHTML (lines 69-74). -/
def notificationMarkup (message : String) : String :=
  markupBefore ++ message ++ markupAfter

/-- The declarations of the cssText assigned to the banner (lines 76-83). -/
def notificationStyle : List (String × String) :=
  [("position", "fixed"), ("top", "20px"), ("right", "20px"), ("z-index", "9999"),
   ("min-width", "300px"), ("backdrop-filter", "blur(10px)")]

/-- The className assigned to the banner (line 68). -/
def bannerClass (type : String) : String :=
  "alert alert-" ++ type ++ " alert-glass notification"

/-- The function window.showNotification (lines 66-92); the type argument may be left out. -/
def showNotification (s : State) (message : String) (type : Option String) : Outcome :=
  let t := type.getD "info"
  let notification := s.nodes.length
  let nodes1 := s.nodes ++ [Node.element "div" [("class", bannerClass t)]]
  let nodes2 := setInnerHTML nodes1 notification (notificationMarkup message)
  let nodes3 := modifyNode nodes2 notification (fun n => { n with style := notificationStyle })
  match documentBody { s with nodes := nodes3 } with
  | none => { state := { s with nodes := nodes3 }, defaultPrevented := false, error := some .typeError }
  | some body =>
    { state := setTimeout { s with nodes := appendChild nodes3 body notification }
                 (.removeNotification notification) 5000,
      defaultPrevented := false, error := none }

/-- The inline click handler of the close control (line 72). -/
def closeClick (s : State) (this : Nat) : Outcome :=
  match parentElement s.nodes this with
  | none => { state := s, defaultPrevented := false, error := some .typeError }
  | some p1 =>
    match parentElement s.nodes p1 with
    | none => { state := s, defaultPrevented := false, error := some .typeError }
    | some p2 => { state := { s with nodes := removeNode s.nodes p2 }, defaultPrevented := false,
                   error := none }

/-- The code of the inline click handler in the template (line 72). -/
def closeHandlerCode : String := "this.parentElement.parentElement.remove()"

/-- The close controls inside a banner: the elements that carry the inline close handler. -/
def closeControls (s : State) (banner : Nat) : List Nat :=
  allMatches s.nodes (fun n => n.getAttribute "onclick" = some closeHandlerCode)
    (descendants s.nodes banner)

/-- The elements that get listeners when the DOMContentLoaded handler runs (lines 3-63): what
each querySelectorAll call selects at that moment. Elements added later get none. -/
structure Listeners where
  anchors : List Nat
  cards : List Nat
  forms : List Nat
  stars : List Nat
deriving DecidableEq, Repr

/-- The listeners attached by the DOMContentLoaded handler. -/
def domContentLoaded (s : State) : Listeners :=
  { anchors := hashAnchors s, cards := cards s, forms := forms s, stars := stars s }

/-! ## Timers -/

/-- A pointer event delivered to a card. -/
inductive PointerEvent where
  | enter
  | leave
deriving DecidableEq, Repr

/-- The value the listener for the event assigns to the transform. -/
def PointerEvent.transform : PointerEvent → String
  | .enter => "translateY(-8px) scale(1.02)"
  | .leave => "translateY(0) scale(1)"

/-- Deliver one pointer event to a card. -/
def cardListener (s : State) (this : Nat) : PointerEvent → State
  | .enter => cardMouseEnter s this
  | .leave => cardMouseLeave s this

/-- Deliver a sequence of pointer events to a card, first event first. -/
def cardEvents (s : State) (this : Nat) (es : List PointerEvent) : State :=
  es.foldl (fun st e => cardListener st this e) s

/-- The inline transform of an element (none when the property is not set). -/
def inlineTransform (s : State) (i : Nat) : Option String :=
  match s.nodes[i]? with
  | some n => n.style.lookup "transform"
  | none => none

/-- The style a sequence of pointer events leaves on a card that had the given style. -/
def styleAfter (es : List PointerEvent) (style : List (String × String)) : List (String × String) :=
  es.foldl (fun st e => setStyleProperty st "transform" e.transform) style

/-- A message is plain text when it has none of the characters that the markup parser does not
copy into a text node as they are: the less-than sign, the ampersand, carriage return and the
null character. -/
def isPlainText (m : String) : Bool :=
  m.data.all (fun c => !(c = '<' || c = '&' || c = '\r' || c = Char.ofNat 0))

/-- The tokens of the template before the message. -/
def tokensBefore : List Token :=
  match tokScan TokState.start markupBefore.data with
  | some (_, toks) => toks
  | none => []

/-- The tokens of the template after the message. -/
def tokensAfter : List Token :=
  match tokScan TokState.start markupAfter.data with
  | some (_, toks) => toks
  | none => []

/-- The tree under construction when the template has been read up to the message and the
message text read so far is the given one (none before its first character): the fragment
root, the outer white space, the flex container, white space, and the open span. -/
def spanOpen (text : Option String) : Builder :=
  { nodes :=
      [ { Node.element "html" [] with children := [1, 2] },
        { Node.textNode "\n            " with parent := some 0 },
        { Node.element "div" [("class", "d-flex justify-content-between align-items-center")] with
            parent := some 0, children := [3, 4] },
        { Node.textNode "\n                " with parent := some 2 },
        { Node.element "span" [] with
            parent := some 2, children := match text with | some _ => [5] | none => [] } ]
      ++ (match text with
          | some d => [{ Node.textNode d with parent := some 4 }]
          | none => []),
    stack := [4, 2, 0] }

/-- The tree under construction while the template after the message is read. The arguments say
how far reading has got: the white space read after the span, whether the close control has been
read, the white space read after it, whether the flex container has been closed, and the white
space read after that. -/
def bannerStage (text w1 : Option String) (button : Bool) (w2 : Option String) (closed : Bool)
    (w3 : Option String) : Builder :=
  let i1 := 5 + (match text with | some _ => 1 | none => 0)
  { nodes :=
      [ { Node.element "html" [] with
            children := [1, 2] ++ (match w3 with | some _ => [i1 + 3] | none => []) },
        { Node.textNode "\n            " with parent := some 0 },
        { Node.element "div" [("class", "d-flex justify-content-between align-items-center")] with
            parent := some 0,
            children := [3, 4] ++ (match w1 with | some _ => [i1] | none => [])
                          ++ (if button then [i1 + 1] else [])
                          ++ (match w2 with | some _ => [i1 + 2] | none => []) },
        { Node.textNode "\n                " with parent := some 2 },
        { Node.element "span" [] with
            parent := some 2, children := match text with | some _ => [5] | none => [] } ]
      ++ (match text with
          | some d => [{ Node.textNode d with parent := some 4 }]
          | none => [])
      ++ (match w1 with
          | some w => [{ Node.textNode w with parent := some 2 }]
          | none => [])
      ++ (if button then
            [{ Node.element "button" [("type", "button"), ("class", "btn-close"),
                 ("onclick", "this.parentElement.parentElement.remove()")] with parent := some 2 }]
          else [])
      ++ (match w2 with
          | some w => [{ Node.textNode w with parent := some 2 }]
          | none => [])
      ++ (match w3 with
          | some w => [{ Node.textNode w with parent := some 0 }]
          | none => []),
    stack := if closed then [0] else [2, 0] }

/-- The fragment parsed from the banner markup of a plain-text message: the root, the outer
white space, the flex container with the span (holding the message as one text node, or nothing
when the message is empty) and the close control, and the closing white space. -/
def bannerFragment (m : String) : List Node :=
  if m = "" then
    [ { Node.element "html" [] with children := [1, 2, 8] },
      { Node.textNode "\n            " with parent := some 0 },
      { Node.element "div" [("class", "d-flex justify-content-between align-items-center")] with
          parent := some 0, children := [3, 4, 5, 6, 7] },
      { Node.textNode "\n                " with parent := some 2 },
      { Node.element "span" [] with parent := some 2 },
      { Node.textNode "\n                " with parent := some 2 },
      { Node.element "button" [("type", "button"), ("class", "btn-close"),
          ("onclick", "this.parentElement.parentElement.remove()")] with parent := some 2 },
      { Node.textNode "\n            " with parent := some 2 },
      { Node.textNode "\n        " with parent := some 0 } ]
  else
    [ { Node.element "html" [] with children := [1, 2, 9] },
      { Node.textNode "\n            " with parent := some 0 },
      { Node.element "div" [("class", "d-flex justify-content-between align-items-center")] with
          parent := some 0, children := [3, 4, 6, 7, 8] },
      { Node.textNode "\n                " with parent := some 2 },
      { Node.element "span" [] with parent := some 2, children := [5] },
      { Node.textNode m with parent := some 4 },
      { Node.textNode "\n                " with parent := some 2 },
      { Node.element "button" [("type", "button"), ("class", "btn-close"),
          ("onclick", "this.parentElement.parentElement.remove()")] with parent := some 2 },
      { Node.textNode "\n            " with parent := some 2 },
      { Node.textNode "\n        " with parent := some 0 } ]

/-- The banner and the nodes under it as showNotification leaves them for a plain-text
message, the banner first; banner is the index of the banner, body that of the body. -/
def bannerNodes (banner body : Nat) (type m : String) : List Node :=
  { Node.element "div" [("class", bannerClass type)] with
      parent := some body, innerHTML := notificationMarkup m, style := notificationStyle,
      children := (match bannerFragment m with
                   | fragRoot :: _ => fragRoot.children
                   | [] => []).map (remap banner (banner + 1)) }
    :: (bannerFragment m).tail.map (graftNode banner (banner + 1))

/-- Every child link of the heap points at a node of the heap. -/
def linksValid (s : State) : Bool :=
  s.nodes.all (fun n => n.children.all (fun c => c < s.nodes.length))

/-! ## A sample page -/

/-- A page with a form and its submit control "Save", two anchors, a card, two rating stars
and an element whose id starts with a digit. Node 0 is the document. -/
def samplePage : State :=
  { nodes :=
      [ { Node.element "#document" [] with children := [1] },
        { Node.element "html" [] with parent := some 0, children := [2] },
        { Node.element "body" [] with parent := some 1, children := [3, 5, 6, 7, 8, 11] },
        { Node.element "form" [] with parent := some 2, children := [4] },
        { Node.element "button" [("type", "submit")] with parent := some 3, innerHTML := "Save" },
        { Node.element "a" [("href", "#")] with parent := some 2 },
        { Node.element "a" [("href", "#1abc")] with parent := some 2 },
        { Node.element "div" [("class", "card")] with parent := some 2 },
        { Node.element "div" [("class", "rating-stars")] with parent := some 2, children := [9, 10] },
        { Node.element "span" [("class", "star"), ("data-rating", "4")] with parent := some 8 },
        { Node.element "span" [("class", "star"), ("data-rating", "")] with parent := some 8 },
        { Node.element "h2" [("id", "1abc")] with parent := some 2 } ],
    doc := 0, now := 0, timers := [], console := [], scrolls := [] }

theorem length_modifyNode (nodes : List Node) (i : Nat) (f : Node → Node) :
    (modifyNode nodes i f).length = nodes.length := by
  unfold modifyNode
  split <;> simp

theorem getElem?_modifyNode (nodes : List Node) (i j : Nat) (f : Node → Node) :
    (modifyNode nodes i f)[j]? = if i = j then (nodes[j]?).map f else nodes[j]? := by
  unfold modifyNode
  split
  · rename_i n hn
    by_cases hij : i = j
    · subst hij
      have hlt : i < nodes.length := by
        rcases List.getElem?_eq_some_iff.mp hn with ⟨h, _⟩
        exact h
      simp [List.getElem?_set, hlt, hn]
    · simp [List.getElem?_set, hij]
  · rename_i hn
    by_cases hij : i = j
    · subst hij
      simp [hn]
    · simp [hij]

theorem getElem?_modifyNode_ne (nodes : List Node) (i j : Nat) (f : Node → Node) (h : i ≠ j) :
    (modifyNode nodes i f)[j]? = nodes[j]? := by
  simp [getElem?_modifyNode, h]

theorem getElem?_modifyNode_self (nodes : List Node) (i : Nat) (f : Node → Node) :
    (modifyNode nodes i f)[i]? = (nodes[i]?).map f := by
  simp [getElem?_modifyNode]

/-! ## Card hover (C8) -/

theorem lookup_setStyleProperty_self (style : List (String × String)) (p v : String) :
    (setStyleProperty style p v).lookup p = some v := by
  induction style with
  | nil => simp [setStyleProperty, List.lookup]
  | cons d ds ih =>
    obtain ⟨a, b⟩ := d
    by_cases hd : a = p
    · simp [setStyleProperty, hd, List.lookup]
    · have hne : (p == a) = false := by
        simp [beq_eq_false_iff_ne]
        exact fun e => hd e.symm
      simp [setStyleProperty, hd, List.lookup, hne, ih]

theorem lookup_setStyleProperty_other (style : List (String × String)) (p v q : String)
    (hq : q ≠ p) : (setStyleProperty style p v).lookup q = style.lookup q := by
  have hqp : (q == p) = false := by simp [beq_eq_false_iff_ne, hq]
  induction style with
  | nil => simp [setStyleProperty, List.lookup, hqp]
  | cons d ds ih =>
    obtain ⟨a, b⟩ := d
    by_cases hd : a = p
    · subst hd
      simp [setStyleProperty, List.lookup, hqp]
    · simp only [setStyleProperty, hd, if_false, List.lookup]
      cases (q == a) <;> simp [ih]

theorem setStyleProperty_twice (style : List (String × String)) (p v w : String) :
    setStyleProperty (setStyleProperty style p v) p w = setStyleProperty style p w := by
  induction style with
  | nil => simp [setStyleProperty]
  | cons d ds ih =>
    obtain ⟨a, b⟩ := d
    by_cases hd : a = p
    · simp [setStyleProperty, hd]
    · simp [setStyleProperty, hd, ih]

theorem modifyNode_modifyNode (nodes : List Node) (i : Nat) (f g : Node → Node) :
    modifyNode (modifyNode nodes i f) i g = modifyNode nodes i (fun n => g (f n)) := by
  apply List.ext_getElem?
  intro j
  by_cases hij : i = j
  · subst hij
    simp [getElem?_modifyNode, Function.comp_def]
  · simp [getElem?_modifyNode, hij]

theorem modifyNode_id (nodes : List Node) (i : Nat) : modifyNode nodes i (fun n => n) = nodes := by
  apply List.ext_getElem?
  intro j
  by_cases hij : i = j
  · subst hij
    simp [getElem?_modifyNode]
  · simp [getElem?_modifyNode, hij]

theorem cardListener_eq (s : State) (this : Nat) (e : PointerEvent) :
    cardListener s this e = { s with nodes := modifyNode s.nodes this (fun n =>
      { n with style := setStyleProperty n.style "transform" e.transform }) } := by
  cases e <;> rfl

theorem cardEvents_eq (es : List PointerEvent) (s : State) (this : Nat) :
    cardEvents s this es = { s with nodes := modifyNode s.nodes this (fun n =>
      { n with style := styleAfter es n.style }) } := by
  induction es generalizing s with
  | nil =>
    simp only [cardEvents, styleAfter, List.foldl_nil]
    rw [modifyNode_id]
  | cons e es ih =>
    have h := ih (cardListener s this e)
    simp only [cardEvents, List.foldl_cons] at h ⊢
    rw [h, cardListener_eq]
    simp only [modifyNode_modifyNode, styleAfter, List.foldl_cons]

theorem styleAfter_transform (es : List PointerEvent) (hne : es ≠ [])
    (style : List (String × String)) :
    (styleAfter es style).lookup "transform" = some (es.getLast hne).transform := by
  induction es generalizing style with
  | nil => exact absurd rfl hne
  | cons e es ih =>
    by_cases hes : es = []
    · subst hes
      simp [styleAfter, lookup_setStyleProperty_self]
    · have h := ih hes (setStyleProperty style "transform" e.transform)
      simp only [styleAfter, List.foldl_cons] at h ⊢
      rw [h, List.getLast_cons hes]

theorem styleAfter_other (es : List PointerEvent) (style : List (String × String)) (q : String)
    (hq : q ≠ "transform") : (styleAfter es style).lookup q = style.lookup q := by
  induction es generalizing style with
  | nil => rfl
  | cons e es ih =>
    have h := ih (setStyleProperty style "transform" e.transform)
    simp only [styleAfter, List.foldl_cons] at h ⊢
    rw [h, lookup_setStyleProperty_other _ _ _ _ hq]

/-- C8: after any non-empty sequence of pointer-enter and pointer-leave events on a card, the
card's inline transform is the value assigned for the last event (elevated after an enter,
neutral after a leave); two enter/leave pairs leave the same page as one; every other node, every
other field of the card, every other style property of the card and the rest of the page state
are as before. -/
theorem card_transform_follows_last_event (s : State) (card : Nat) (es : List PointerEvent)
    (hcard : card < s.nodes.length) (hne : es ≠ []) :
    inlineTransform (cardEvents s card es) card = some (es.getLast hne).transform
    ∧ cardEvents s card [.enter, .leave, .enter, .leave] = cardEvents s card [.enter, .leave]
    ∧ (∀ j, j ≠ card → (cardEvents s card es).nodes[j]? = s.nodes[j]?)
    ∧ (∀ n, s.nodes[card]? = some n →
        ∃ st, (cardEvents s card es).nodes[card]? = some { n with style := st }
          ∧ ∀ q, q ≠ "transform" → st.lookup q = n.style.lookup q)
    ∧ { cardEvents s card es with nodes := s.nodes } = s := by
  obtain ⟨n, hn⟩ : ∃ n, s.nodes[card]? = some n := by
    exact ⟨s.nodes[card], List.getElem?_eq_getElem hcard⟩
  refine ⟨?_, ?_, ?_, ?_, ?_⟩
  · simp [inlineTransform, cardEvents_eq, getElem?_modifyNode, hn, styleAfter_transform es hne]
  · rw [cardEvents_eq, cardEvents_eq]
    simp [styleAfter, PointerEvent.transform, setStyleProperty_twice]
  · intro j hj
    simp [cardEvents_eq, getElem?_modifyNode, Ne.symm hj]
  · intro n1 hn1
    refine ⟨styleAfter es n1.style, ?_, ?_⟩
    · simp [cardEvents_eq, getElem?_modifyNode, hn1]
    · intro q hq
      exact styleAfter_other es n1.style q hq
  · rw [cardEvents_eq]


/-- The card of the sample page after an enter and a leave has the neutral transform. -/
theorem card_transform_follows_last_event_witness :
    7 ∈ (domContentLoaded samplePage).cards
    ∧ 7 < samplePage.nodes.length ∧ [PointerEvent.enter, PointerEvent.leave] ≠ []
    ∧ inlineTransform (cardEvents samplePage 7 [.enter, .leave]) 7
        = some "translateY(0) scale(1)" :=
  ⟨by decide, by decide, by decide,
    (card_transform_follows_last_event samplePage 7 [.enter, .leave] (by decide) (by decide)).1⟩

/-! ## Rating stars (C9) -/

/-- C9 as stated fails: a star whose data-rating attribute is present with the empty string as
value produces no record when clicked. -/
theorem star_click_empty_rating_no_record :
    ((samplePage.nodes[10]?).bind (fun n => n.getAttribute "data-rating") = some "")
    ∧ (starClick samplePage 10).console = [] := by
  decide

/-- C9 amended: a click on a star whose data-rating attribute has a non-empty value r adds
exactly one record, which holds r, to the console and changes nothing else; a click on a star
whose attribute is absent or empty changes nothing at all. -/
theorem star_click_records_nonempty_rating (s : State) (star : Nat) (n : Node)
    (hn : s.nodes[star]? = some n) :
    (∀ r, n.getAttribute "data-rating" = some r → r ≠ "" →
        starClick s star = { s with console := s.console ++ [["Rating submitted:", r]] })
    ∧ (n.getAttribute "data-rating" = none ∨ n.getAttribute "data-rating" = some "" →
        starClick s star = s) := by
  constructor
  · intro r hr hne
    simp [starClick, hn, hr, hne]
  · intro h
    rcases h with h | h <;> simp [starClick, hn, h]

/-- A click on the star of the sample page with data-rating "4" adds the record with "4". -/
theorem star_click_records_nonempty_rating_witness :
    (starClick samplePage 9).console = [["Rating submitted:", "4"]] ∧
    (starClick samplePage 9).nodes = samplePage.nodes := by
  have h := (star_click_records_nonempty_rating samplePage 9
    (Node.element "span" [("class", "star"), ("data-rating", "4")] |> fun n =>
      { n with parent := some 8 }) (by decide)).1 "4" (by decide) (by decide)
  rw [h]
  exact ⟨rfl, rfl⟩

/-! ## Effects of the document operations on single nodes -/

theorem firstMatch_some_lt (nodes : List Node) (p : Node → Bool) (cands : List Nat) (i : Nat)
    (h : firstMatch nodes p cands = some i) : i < nodes.length := by
  unfold firstMatch at h
  have hp := List.find?_some h
  cases hn : nodes[i]? with
  | none => simp [hn] at hp
  | some n => exact (List.getElem?_eq_some_iff.mp hn).1

theorem tokScan_append (a b : List Char) (st : TokState) :
    tokScan st (a ++ b) =
      match tokScan st a with
      | none => none
      | some (st1, out1) =>
        match tokScan st1 b with
        | none => none
        | some (st2, out2) => some (st2, out1 ++ out2) := by
  induction a generalizing st with
  | nil =>
    simp only [List.nil_append, tokScan]
    cases tokScan st b with
    | none => rfl
    | some r => simp
  | cons c cs ih =>
    have e : tokScan st (c :: cs ++ b) =
        match tokStep st c with
        | none => none
        | some (st1, out) =>
          match tokScan st1 (cs ++ b) with
          | none => none
          | some (st2, rest) => some (st2, out ++ rest) := rfl
    rw [e]
    simp only [tokScan]
    cases tokStep st c with
    | none => rfl
    | some r =>
      obtain ⟨st1, out⟩ := r
      simp only []
      rw [ih st1]
      cases tokScan st1 cs with
      | none => rfl
      | some r2 =>
        obtain ⟨st2, out2⟩ := r2
        simp only []
        cases tokScan st2 b with
        | none => rfl
        | some r3 => simp [List.append_assoc]

/-- Plain text is tokenized character by character. -/
theorem tokScan_plain (cs : List Char)
    (h : cs.all (fun c => !(c = '<' || c = '&' || c = '\r' || c = Char.ofNat 0)) = true) :
    tokScan TokState.start cs = some (TokState.start, cs.map Token.char) := by
  induction cs with
  | nil => rfl
  | cons c cs ih =>
    simp only [List.all_cons, Bool.and_eq_true] at h
    obtain ⟨hc, hcs⟩ := h
    have h1 : ¬ c = '<' := by
      intro e; simp [e] at hc
    have h2 : (c = '&' || c = '\r' || c = Char.ofNat 0) = false := by
      cases hx : (c = '&' || c = '\r' || c = Char.ofNat 0 : Bool) with
      | false => rfl
      | true =>
        simp only [Bool.or_eq_true, decide_eq_true_eq] at hx
        rcases hx with (hx | hx) | hx <;> simp [hx] at hc
    have hstep : tokStep TokState.start c = some (TokState.start, [Token.char c]) := by
      simp only [tokStep, TokState.start, h1, if_false, h2]
      rfl
    simp [tokScan, hstep, ih hcs]

theorem tokScan_before : tokScan TokState.start markupBefore.data = some (TokState.start, tokensBefore) := by
  decide

theorem tokScan_after : tokScan TokState.start markupAfter.data = some (TokState.start, tokensAfter) := by
  decide

theorem tokenize_notificationMarkup (m : String) (hm : isPlainText m = true) :
    tokenize (notificationMarkup m) = some (tokensBefore ++ m.data.map Token.char ++ tokensAfter) := by
  have hdata : (notificationMarkup m).data = markupBefore.data ++ (m.data ++ markupAfter.data) := by
    simp [notificationMarkup, String.data_append]
  simp only [tokenize, hdata, tokScan_append, tokScan_before, tokScan_plain m.data hm, tokScan_after]
  simp [TokState.start]

theorem buildAll_append (a b : List Token) (bd : Builder) :
    buildAll bd (a ++ b) =
      match buildAll bd a with
      | none => none
      | some b1 => buildAll b1 b := by
  induction a generalizing bd with
  | nil => rfl
  | cons t ts ih =>
    have e : buildAll bd (t :: ts ++ b) =
        match buildStep bd t with
        | none => none
        | some b1 => buildAll b1 (ts ++ b) := rfl
    rw [e]
    simp only [buildAll]
    cases buildStep bd t with
    | none => rfl
    | some b1 => exact ih b1

set_option maxRecDepth 100000 in
theorem buildAll_before : buildAll Builder.start tokensBefore = some (spanOpen none) := by
  decide

theorem buildStep_first_char (c : Char) :
    buildStep (spanOpen none) (.char c) = some (spanOpen (some (String.singleton c))) := rfl

theorem buildStep_next_char (d : String) (c : Char) :
    buildStep (spanOpen (some d)) (.char c) = some (spanOpen (some (d.push c))) := rfl

/-- A run of characters read into an open text node extends its data. -/
theorem buildAll_run (S : Option String → Builder)
    (hnext : ∀ w c, buildStep (S (some w)) (.char c) = some (S (some (w.push c))))
    (cs : List Char) (w : String) :
    buildAll (S (some w)) (cs.map Token.char) = some (S (some ⟨w.data ++ cs⟩)) := by
  induction cs generalizing w with
  | nil => simp [buildAll]
  | cons c cs ih =>
    simp only [List.map_cons, buildAll, hnext]
    rw [ih]
    simp [String.push, List.append_assoc]

/-- A non-empty run of characters read where no text node is open makes one text node. -/
theorem buildAll_run_first (S : Option String → Builder)
    (hfirst : ∀ c, buildStep (S none) (.char c) = some (S (some (String.singleton c))))
    (hnext : ∀ w c, buildStep (S (some w)) (.char c) = some (S (some (w.push c))))
    (w : String) (hw : w ≠ "") :
    buildAll (S none) (w.data.map Token.char) = some (S (some w)) := by
  obtain ⟨data⟩ := w
  cases data with
  | nil => exact absurd rfl hw
  | cons c cs =>
    simp only [List.map_cons, buildAll, hfirst]
    rw [buildAll_run S hnext]
    rfl

theorem buildStep_close_span (text : Option String) :
    buildStep (spanOpen text) (.endTag "span") = some (bannerStage text none false none false none) := by
  cases text <;> rfl

theorem buildStep_w1_first (text : Option String) (c : Char) :
    buildStep (bannerStage text none false none false none) (.char c)
      = some (bannerStage text (some (String.singleton c)) false none false none) := by
  cases text <;> rfl

theorem buildStep_w1_next (text : Option String) (w : String) (c : Char) :
    buildStep (bannerStage text (some w) false none false none) (.char c)
      = some (bannerStage text (some (w.push c)) false none false none) := by
  cases text <;> rfl

theorem buildAll_button (text : Option String) (w : String) :
    buildAll (bannerStage text (some w) false none false none)
        [.startTag "button" [("type", "button"), ("class", "btn-close"),
           ("onclick", "this.parentElement.parentElement.remove()")], .endTag "button"]
      = some (bannerStage text (some w) true none false none) := by
  cases text <;> rfl

theorem buildStep_w2_first (text : Option String) (w1 : String) (c : Char) :
    buildStep (bannerStage text (some w1) true none false none) (.char c)
      = some (bannerStage text (some w1) true (some (String.singleton c)) false none) := by
  cases text <;> rfl

theorem buildStep_w2_next (text : Option String) (w1 w : String) (c : Char) :
    buildStep (bannerStage text (some w1) true (some w) false none) (.char c)
      = some (bannerStage text (some w1) true (some (w.push c)) false none) := by
  cases text <;> rfl

theorem buildStep_close_div (text : Option String) (w1 w2 : String) :
    buildStep (bannerStage text (some w1) true (some w2) false none) (.endTag "div")
      = some (bannerStage text (some w1) true (some w2) true none) := by
  cases text <;> rfl

theorem buildStep_w3_first (text : Option String) (w1 w2 : String) (c : Char) :
    buildStep (bannerStage text (some w1) true (some w2) true none) (.char c)
      = some (bannerStage text (some w1) true (some w2) true (some (String.singleton c))) := by
  cases text <;> rfl

theorem buildStep_w3_next (text : Option String) (w1 w2 w : String) (c : Char) :
    buildStep (bannerStage text (some w1) true (some w2) true (some w)) (.char c)
      = some (bannerStage text (some w1) true (some w2) true (some (w.push c))) := by
  cases text <;> rfl

theorem tokensAfter_eq :
    tokensAfter =
      [Token.endTag "span"] ++ ("\n                ".data.map Token.char
        ++ ([Token.startTag "button" [("type", "button"), ("class", "btn-close"),
               ("onclick", "this.parentElement.parentElement.remove()")], Token.endTag "button"]
        ++ ("\n            ".data.map Token.char
        ++ ([Token.endTag "div"] ++ "\n        ".data.map Token.char)))) := by
  decide

theorem buildAll_singleton (bd : Builder) (t : Token) : buildAll bd [t] = buildStep bd t := by
  simp only [buildAll]
  cases buildStep bd t <;> rfl

theorem buildAll_after_general (text : Option String) (w1 w2 w3 : String)
    (h1 : w1 ≠ "") (h2 : w2 ≠ "") (h3 : w3 ≠ "") :
    buildAll (spanOpen text)
      ([Token.endTag "span"] ++ (w1.data.map Token.char
        ++ ([Token.startTag "button" [("type", "button"), ("class", "btn-close"),
               ("onclick", "this.parentElement.parentElement.remove()")], Token.endTag "button"]
        ++ (w2.data.map Token.char
        ++ ([Token.endTag "div"] ++ w3.data.map Token.char)))))
      = some (bannerStage text (some w1) true (some w2) true (some w3)) := by
  rw [buildAll_append, buildAll_singleton, buildStep_close_span]
  simp only []
  rw [buildAll_append,
    buildAll_run_first (fun w => bannerStage text w false none false none)
        (buildStep_w1_first text) (buildStep_w1_next text) w1 h1]
  simp only []
  rw [buildAll_append, buildAll_button]
  simp only []
  rw [buildAll_append,
    buildAll_run_first (fun w => bannerStage text (some w1) true w false none)
        (buildStep_w2_first text w1) (buildStep_w2_next text w1) w2 h2]
  simp only []
  rw [buildAll_append, buildAll_singleton, buildStep_close_div]
  simp only []
  rw [buildAll_run_first (fun w => bannerStage text (some w1) true (some w2) true w)
        (buildStep_w3_first text w1 w2) (buildStep_w3_next text w1 w2) w3 h3]

theorem buildAll_after (text : Option String) :
    buildAll (spanOpen text) tokensAfter
      = some (bannerStage text (some "\n                ") true (some "\n            ") true
                (some "\n        ")) := by
  rw [tokensAfter_eq]
  exact buildAll_after_general text _ _ _ (by decide) (by decide) (by decide)

/-- The banner markup of a plain-text message parses into the expected fragment. -/
theorem parseFragment_notificationMarkup (m : String) (hm : isPlainText m = true) :
    parseFragment (notificationMarkup m) = some (bannerFragment m) := by
  simp only [parseFragment, tokenize_notificationMarkup m hm, List.append_assoc, buildAll_append,
    buildAll_before]
  by_cases he : m = ""
  · subst he
    simp only [String.data, List.map_nil, buildAll, buildAll_after]
    rfl
  · rw [buildAll_run_first spanOpen buildStep_first_char buildStep_next_char m he]
    simp only [buildAll_after, bannerFragment, he, if_false]
    rfl

/-! ## The page after showNotification -/

theorem modifyNode_append_left (l r : List Node) (i : Nat) (f : Node → Node) (h : i < l.length) :
    modifyNode (l ++ r) i f = modifyNode l i f ++ r := by
  apply List.ext_getElem?
  intro j
  by_cases hj : j < l.length
  · rw [getElem?_modifyNode, List.getElem?_append_left hj,
      List.getElem?_append_left (by rw [length_modifyNode]; exact hj), getElem?_modifyNode]
  · have hj2 : l.length ≤ j := Nat.le_of_not_lt hj
    have hne : i ≠ j := fun e => hj (e ▸ h)
    rw [getElem?_modifyNode_ne _ _ _ _ hne, List.getElem?_append_right hj2,
      List.getElem?_append_right (by rw [length_modifyNode]; exact hj2), length_modifyNode]

theorem modifyNode_append_right (l r : List Node) (k : Nat) (f : Node → Node) :
    modifyNode (l ++ r) (l.length + k) f = l ++ modifyNode r k f := by
  apply List.ext_getElem?
  intro j
  by_cases hj : j < l.length
  · have hne : l.length + k ≠ j := by omega
    rw [getElem?_modifyNode_ne _ _ _ _ hne, List.getElem?_append_left hj,
      List.getElem?_append_left hj]
  · have hj2 : l.length ≤ j := Nat.le_of_not_lt hj
    rw [getElem?_modifyNode, List.getElem?_append_right hj2, List.getElem?_append_right hj2,
      getElem?_modifyNode]
    by_cases hk : k = j - l.length
    · have e : l.length + k = j := by omega
      rw [if_pos e, if_pos hk]
    · have e : l.length + k ≠ j := by omega
      rw [if_neg e, if_neg hk]

theorem firstMatch_congr (nodes nodes1 : List Node) (p : Node → Bool) (cands : List Nat)
    (h : ∀ c ∈ cands, nodes1[c]? = nodes[c]?) :
    firstMatch nodes1 p cands = firstMatch nodes p cands := by
  induction cands with
  | nil => rfl
  | cons c cs ih =>
    have hc := h c (List.mem_cons_self _ _)
    have hcs := ih (fun x hx => h x (List.mem_cons_of_mem _ hx))
    simp only [firstMatch, List.find?_cons] at hcs ⊢
    rw [hc, hcs]

theorem linksValid_children (s : State) (hv : linksValid s = true) (i : Nat) (n : Node)
    (hn : s.nodes[i]? = some n) : ∀ c ∈ n.children, c < s.nodes.length := by
  intro c hc
  have hmem : n ∈ s.nodes := by
    obtain ⟨hlt, he⟩ := List.getElem?_eq_some_iff.mp hn
    rw [← he]
    exact List.getElem_mem _
  simp only [linksValid, List.all_eq_true, decide_eq_true_eq] at hv
  exact hv n hmem c hc

/-- The body of the document is the same after nodes are added to a heap with valid links. -/
theorem documentBody_stable (s : State) (nodes1 : List Node) (body : Nat) (hv : linksValid s = true)
    (hb : documentBody s = some body)
    (hsame : ∀ j, j < s.nodes.length → nodes1[j]? = s.nodes[j]?) :
    documentBody { s with nodes := nodes1 } = some body := by
  unfold documentBody documentElement at hb ⊢
  cases hd : s.nodes[s.doc]? with
  | none => simp [hd] at hb
  | some dn =>
    have hdlt : s.doc < s.nodes.length := (List.getElem?_eq_some_iff.mp hd).1
    have e1 : nodes1[s.doc]? = some dn := by rw [hsame _ hdlt, hd]
    have c1 : firstMatch nodes1 (fun _ => true) dn.children
        = firstMatch s.nodes (fun _ => true) dn.children :=
      firstMatch_congr _ _ _ _ (fun c hc => hsame c (linksValid_children s hv _ _ hd c hc))
    simp only [hd] at hb
    simp only [e1, c1]
    cases hh : firstMatch s.nodes (fun _ => true) dn.children with
    | none => simp [hh] at hb
    | some h =>
      have hhlt : h < s.nodes.length := firstMatch_some_lt _ _ _ _ hh
      simp only [hh] at hb ⊢
      cases hhn : s.nodes[h]? with
      | none => simp [hhn] at hb
      | some hn =>
        have e2 : nodes1[h]? = some hn := by rw [hsame _ hhlt, hhn]
        simp only [hhn] at hb
        simp only [e2]
        rw [firstMatch_congr _ _ _ _
          (fun c hc => hsame c (linksValid_children s hv _ _ hhn c hc))]
        exact hb

theorem modifyNode_append_head (l r : List Node) (x : Node) (f : Node → Node) (i : Nat)
    (hi : i = l.length) : modifyNode (l ++ x :: r) i f = l ++ f x :: r := by
  subst hi
  have h := modifyNode_append_right l (x :: r) 0 f
  simp only [Nat.add_zero] at h
  rw [h]
  simp [modifyNode]

theorem getElem?_append_head (l r : List Node) (x : Node) (i : Nat) (hi : i = l.length) :
    (l ++ x :: r)[i]? = some x := by
  subst hi
  rw [List.getElem?_append_right (Nat.le_refl _)]
  simp

theorem graftedNodes_notificationMarkup (m : String) (hm : isPlainText m = true)
    (target base : Nat) :
    graftedNodes target base (notificationMarkup m)
      = ((bannerFragment m).tail.map (graftNode target base),
         (match bannerFragment m with
          | fragRoot :: _ => fragRoot.children
          | [] => []).map (remap target base)) := by
  simp only [graftedNodes, parseFragment_notificationMarkup m hm]
  by_cases he : m = ""
  · simp [bannerFragment, he]
  · simp [bannerFragment, he]

/-- The page after showNotification with a plain-text message: the banner and its nodes are
added at the end of the heap, the body gets the banner as last child, one timer is scheduled
5000 ms ahead, and nothing else changes. -/
theorem showNotification_plain (s : State) (m : String) (type : Option String) (body : Nat)
    (hm : isPlainText m = true) (hv : linksValid s = true) (hb : documentBody s = some body) :
    showNotification s m type =
      { state := { s with
          nodes := modifyNode s.nodes body
                      (fun n => { n with children := n.children ++ [s.nodes.length] })
                    ++ bannerNodes s.nodes.length body (type.getD "info") m,
          timers := s.timers
                      ++ [{ due := s.now + 5000, callback := .removeNotification s.nodes.length }] },
        defaultPrevented := false, error := none } := by
  have hblt : body < s.nodes.length := by
    unfold documentBody at hb
    cases hh : documentElement s with
    | none => simp [hh] at hb
    | some h =>
      simp only [hh] at hb
      cases hhn : s.nodes[h]? with
      | none => simp [hhn] at hb
      | some hn =>
        simp only [hhn] at hb
        exact firstMatch_some_lt _ _ _ _ hb
  have hset : setInnerHTML (s.nodes ++ [Node.element "div" [("class", bannerClass (type.getD "info"))]])
      s.nodes.length (notificationMarkup m)
      = s.nodes ++
          { Node.element "div" [("class", bannerClass (type.getD "info"))] with
              innerHTML := notificationMarkup m,
              children := (match bannerFragment m with
                           | fragRoot :: _ => fragRoot.children
                           | [] => []).map (remap s.nodes.length (s.nodes.length + 1)) }
          :: (bannerFragment m).tail.map (graftNode s.nodes.length (s.nodes.length + 1)) := by
    simp only [setInnerHTML, getElem?_append_head s.nodes [] _ s.nodes.length rfl,
      graftedNodes_notificationMarkup m hm]
    simp only [Node.element, detachAll, List.foldl_nil, List.length_append, List.length_singleton,
      List.append_assoc, List.singleton_append]
    rw [modifyNode_append_head _ _ _ _ _ rfl]
  have hsame : ∀ j, j < s.nodes.length →
      (s.nodes ++
          { Node.element "div" [("class", bannerClass (type.getD "info"))] with
              innerHTML := notificationMarkup m,
              style := notificationStyle,
              children := (match bannerFragment m with
                           | fragRoot :: _ => fragRoot.children
                           | [] => []).map (remap s.nodes.length (s.nodes.length + 1)) }
          :: (bannerFragment m).tail.map (graftNode s.nodes.length (s.nodes.length + 1)))[j]?
        = s.nodes[j]? := fun j hj => List.getElem?_append_left hj
  have hbody := documentBody_stable s _ body hv hb hsame
  simp only [showNotification, hset]
  rw [modifyNode_append_head _ _ _ _ _ rfl]
  simp only [Node.element] at hbody ⊢
  rw [hbody]
  simp only [setTimeout, appendChild, removeNode, parentNode,
    getElem?_append_head s.nodes _ _ s.nodes.length rfl]
  rw [modifyNode_append_left _ _ _ _ hblt,
    modifyNode_append_head _ _ _ _ _ (by rw [length_modifyNode])]
  simp only [bannerNodes, Node.element]


theorem getElem?_append_offset (l r : List Node) (b k : Nat) (hb : l.length = b) :
    (l ++ r)[b + k]? = r[k]? := by
  subst hb
  rw [List.getElem?_append_right (Nat.le_add_right _ _)]
  simp

theorem bannerNodes_text (b body : Nat) (t m : String) (he : m ≠ "") :
    bannerNodes b body t m =
      [ { Node.element "div" [("class", bannerClass t)] with
            parent := some body, innerHTML := notificationMarkup m, style := notificationStyle,
            children := [b + 1, b + 2, b + 9] },
        { Node.textNode "\n            " with parent := some b },
        { Node.element "div" [("class", "d-flex justify-content-between align-items-center")] with
            parent := some b, children := [b + 3, b + 4, b + 6, b + 7, b + 8] },
        { Node.textNode "\n                " with parent := some (b + 2) },
        { Node.element "span" [] with parent := some (b + 2), children := [b + 5] },
        { Node.textNode m with parent := some (b + 4) },
        { Node.textNode "\n                " with parent := some (b + 2) },
        { Node.element "button" [("type", "button"), ("class", "btn-close"),
            ("onclick", "this.parentElement.parentElement.remove()")] with parent := some (b + 2) },
        { Node.textNode "\n            " with parent := some (b + 2) },
        { Node.textNode "\n        " with parent := some b } ] := by
  simp [bannerNodes, bannerFragment, he, graftNode, remap, Node.element, Node.textNode,
    Nat.add_assoc]

theorem bannerNodes_empty (b body : Nat) (t : String) :
    bannerNodes b body t "" =
      [ { Node.element "div" [("class", bannerClass t)] with
            parent := some body, innerHTML := notificationMarkup "", style := notificationStyle,
            children := [b + 1, b + 2, b + 8] },
        { Node.textNode "\n            " with parent := some b },
        { Node.element "div" [("class", "d-flex justify-content-between align-items-center")] with
            parent := some b, children := [b + 3, b + 4, b + 5, b + 6, b + 7] },
        { Node.textNode "\n                " with parent := some (b + 2) },
        { Node.element "span" [] with parent := some (b + 2) },
        { Node.textNode "\n                " with parent := some (b + 2) },
        { Node.element "button" [("type", "button"), ("class", "btn-close"),
            ("onclick", "this.parentElement.parentElement.remove()")] with parent := some (b + 2) },
        { Node.textNode "\n            " with parent := some (b + 2) },
        { Node.textNode "\n        " with parent := some b } ] := by
  simp [bannerNodes, bannerFragment, graftNode, remap, Node.element, Node.textNode,
    Nat.add_assoc]

theorem join_nil : String.join [] = "" := rfl

theorem join_singleton (m : String) : String.join [m] = m := by
  apply String.ext
  simp [String.join, String.data_append]

/-- The links inside a banner made from a plain-text message: the span holds the message,
the one close control is a child of the flex container, which is a child of the banner. -/
theorem banner_structure (A : List Node) (b body : Nat) (t m : String) (hA : A.length = b) :
    ∃ btn, allMatches (A ++ bannerNodes b body t m)
              (fun n => n.getAttribute "onclick" = some closeHandlerCode)
              (descendants (A ++ bannerNodes b body t m) b) = [btn]
      ∧ b + 2 < btn
      ∧ parentNode (A ++ bannerNodes b body t m) btn = some (b + 2)
      ∧ tagOf (A ++ bannerNodes b body t m) (b + 2) = "div"
      ∧ parentNode (A ++ bannerNodes b body t m) (b + 2) = some b
      ∧ tagOf (A ++ bannerNodes b body t m) b = "div"
      ∧ parentNode (A ++ bannerNodes b body t m) b = some body
      ∧ (b + 4) ∈ descendants (A ++ bannerNodes b body t m) b
      ∧ tagOf (A ++ bannerNodes b body t m) (b + 4) = "span"
      ∧ textContent (A ++ bannerNodes b body t m) (b + 4) = m := by
  have h0 : (A ++ bannerNodes b body t m)[b]? = (bannerNodes b body t m)[0]? := by
    have := getElem?_append_offset A (bannerNodes b body t m) b 0 hA
    simpa using this
  by_cases he : m = ""
  · subst he
    have hlen : (A ++ bannerNodes b body t "").length = b + 8 + 1 := by
      simp [bannerNodes_empty, hA]
    refine ⟨b + 6, ?_, by omega, ?_, ?_, ?_, ?_, ?_, ?_, ?_, ?_⟩
    all_goals
      simp only [descendants, textContent, allMatches, parentNode, tagOf, hlen, descendantsAux, h0,
        getElem?_append_offset A _ b _ hA]
      simp [bannerNodes_empty, descendantsAux, Node.element, Node.textNode, Node.isElement,
        Node.getAttribute, closeHandlerCode, List.lookup,
        getElem?_append_offset A _ b _ hA, h0, join_nil]
  · have hlen : (A ++ bannerNodes b body t m).length = b + 9 + 1 := by
      simp [bannerNodes_text b body t m he, hA]
    refine ⟨b + 7, ?_, by omega, ?_, ?_, ?_, ?_, ?_, ?_, ?_, ?_⟩
    all_goals
      simp only [descendants, textContent, allMatches, parentNode, tagOf, hlen, descendantsAux, h0,
        getElem?_append_offset A _ b _ hA]
      simp [bannerNodes_text b body t m he, descendantsAux, Node.element, Node.textNode,
        Node.isElement, Node.getAttribute, closeHandlerCode, List.lookup,
        getElem?_append_offset A _ b _ hA, h0, join_singleton]

/-! ## Notifications (C2, C3, C4) -/

set_option maxRecDepth 100000 in
/-- C2 as stated fails: a message that holds markup is parsed as markup, so no span of the
banner has the message as its text. -/
theorem notification_markup_message_is_parsed :
    (showNotification samplePage "<span>Saved</span>" (some "success")).error = none
    ∧ ((descendants (showNotification samplePage "<span>Saved</span>" (some "success")).state.nodes
          12).filter
        (fun i => tagOf (showNotification samplePage "<span>Saved</span>"
                          (some "success")).state.nodes i = "span")).map
        (textContent (showNotification samplePage "<span>Saved</span>" (some "success")).state.nodes)
      = ["Saved", "Saved"] := by
  decide

/-- C2 amended: for a plain-text message (no less-than sign, ampersand, carriage return or null
character) and any severity tag (info when left out), showNotification raises no error, adds one
node, the banner, to the children of the body, at the end, and leaves every node that was there
before as it was (the body apart from that new child); the banner has the class attribute
"alert alert-<t> alert-glass notification", and contains a span whose text is the message. -/
theorem showNotification_plain_appends_banner (s : State) (m : String) (type : Option String)
    (body : Nat) (hm : isPlainText m = true) (hv : linksValid s = true)
    (hb : documentBody s = some body) :
    (showNotification s m type).error = none
    ∧ (∀ bn, s.nodes[body]? = some bn →
        (showNotification s m type).state.nodes[body]?
          = some { bn with children := bn.children ++ [s.nodes.length] })
    ∧ (∀ j, j < s.nodes.length → j ≠ body →
        (showNotification s m type).state.nodes[j]? = s.nodes[j]?)
    ∧ ((showNotification s m type).state.nodes[s.nodes.length]?).bind
          (fun n => n.getAttribute "class") = some (bannerClass (type.getD "info"))
    ∧ parentNode (showNotification s m type).state.nodes s.nodes.length = some body
    ∧ (∃ sp, sp ∈ descendants (showNotification s m type).state.nodes s.nodes.length
        ∧ tagOf (showNotification s m type).state.nodes sp = "span"
        ∧ textContent (showNotification s m type).state.nodes sp = m) := by
  rw [showNotification_plain s m type body hm hv hb]
  have hA : (modifyNode s.nodes body
      (fun n => { n with children := n.children ++ [s.nodes.length] })).length = s.nodes.length :=
    length_modifyNode _ _ _
  obtain ⟨btn, _, _, _, _, _, _, hpar, hmem, htag, htext⟩ :=
    banner_structure _ s.nodes.length body (type.getD "info") m hA
  refine ⟨rfl, ?_, ?_, ?_, hpar, ⟨s.nodes.length + 4, hmem, htag, htext⟩⟩
  · intro bn hbn
    have hlt : body < s.nodes.length := (List.getElem?_eq_some_iff.mp hbn).1
    simp only []
    rw [List.getElem?_append_left (by rw [hA]; exact hlt), getElem?_modifyNode_self, hbn]
    rfl
  · intro j hj hne
    simp only []
    rw [List.getElem?_append_left (by rw [hA]; exact hj),
      getElem?_modifyNode_ne _ _ _ _ (Ne.symm hne)]
  · simp only []
    have h0 := getElem?_append_offset _ (bannerNodes s.nodes.length body (type.getD "info") m)
      s.nodes.length 0 hA
    simp only [Nat.add_zero] at h0
    rw [h0]
    simp [bannerNodes, Node.getAttribute, Node.element, List.lookup]

/-- The banner for "Saved successfully" on the sample page holds a span with that text. -/
theorem showNotification_plain_appends_banner_witness :
    isPlainText "Saved successfully" = true ∧ linksValid samplePage = true
    ∧ documentBody samplePage = some 2
    ∧ (∃ sp, sp ∈ descendants
          (showNotification samplePage "Saved successfully" (some "success")).state.nodes 12
        ∧ tagOf (showNotification samplePage "Saved successfully" (some "success")).state.nodes sp
            = "span"
        ∧ textContent
            (showNotification samplePage "Saved successfully" (some "success")).state.nodes sp
            = "Saved successfully") :=
  ⟨by decide, by decide, by decide,
    (showNotification_plain_appends_banner samplePage "Saved successfully" (some "success") 2
      (by decide) (by decide) (by decide)).2.2.2.2.2⟩

theorem closeClick_chain (x : State) (btn d b : Nat) (h1 : parentNode x.nodes btn = some d)
    (hd : tagOf x.nodes d = "div") (h2 : parentNode x.nodes d = some b)
    (hb : tagOf x.nodes b = "div") :
    closeClick x btn = { state := { x with nodes := removeNode x.nodes b },
                         defaultPrevented := false, error := none } := by
  simp [closeClick, parentElement, h1, hd, h2, hb]

theorem removeNode_attached (nodes : List Node) (i p : Nat) (h : parentNode nodes i = some p) :
    removeNode nodes i
      = modifyNode (modifyNode nodes p (fun n => { n with children := n.children.erase i }))
          i (fun n => { n with parent := none }) := by
  simp [removeNode, h]

theorem parentNode_congr (X N : List Node) (j : Nat) (h : X[j]? = N[j]?) :
    parentNode X j = parentNode N j := by
  simp [parentNode, h]

theorem tagOf_congr (X N : List Node) (j : Nat) (h : X[j]? = N[j]?) : tagOf X j = tagOf N j := by
  simp [tagOf, h]

theorem parentNode_some_lt (N : List Node) (j p : Nat) (h : parentNode N j = some p) :
    j < N.length := by
  unfold parentNode at h
  cases hn : N[j]? with
  | none => simp [hn] at h
  | some n => exact (List.getElem?_eq_some_iff.mp hn).1

/-- What removing an attached node does: the parent loses the child, the node loses its parent
link, every other node stays as it is. -/
theorem removeNode_effect (N : List Node) (i p : Nat) (h : parentNode N i = some p) (hne : p ≠ i) :
    (∀ pn, N[p]? = some pn →
        (removeNode N i)[p]? = some { pn with children := pn.children.erase i })
    ∧ (∀ j, j ≠ p → j ≠ i → (removeNode N i)[j]? = N[j]?)
    ∧ parentNode (removeNode N i) i = none
    ∧ tagOf (removeNode N i) i = tagOf N i := by
  rw [removeNode_attached N i p h]
  refine ⟨?_, ?_, ?_, ?_⟩
  · intro pn hpn
    rw [getElem?_modifyNode_ne _ _ _ _ (Ne.symm hne), getElem?_modifyNode_self, hpn]
    rfl
  · intro j hj1 hj2
    rw [getElem?_modifyNode_ne _ _ _ _ (Ne.symm hj2), getElem?_modifyNode_ne _ _ _ _ (Ne.symm hj1)]
  · simp only [parentNode]
    rw [getElem?_modifyNode_self, getElem?_modifyNode_ne _ _ _ _ hne]
    cases N[i]? <;> rfl
  · simp only [tagOf]
    rw [getElem?_modifyNode_self, getElem?_modifyNode_ne _ _ _ _ hne]
    cases N[i]? <;> rfl

theorem documentBody_lt (s : State) (body : Nat) (hb : documentBody s = some body) :
    body < s.nodes.length ∧ tagOf s.nodes body ≠ "#document" := by
  unfold documentBody at hb
  cases hh : documentElement s with
  | none => simp [hh] at hb
  | some h =>
    simp only [hh] at hb
    cases hhn : s.nodes[h]? with
    | none => simp [hhn] at hb
    | some hn =>
      simp only [hhn] at hb
      refine ⟨firstMatch_some_lt _ _ _ _ hb, ?_⟩
      unfold firstMatch at hb
      have hp := List.find?_some hb
      cases hbn : s.nodes[body]? with
      | none => simp [hbn] at hp
      | some bn =>
        simp only [hbn, Bool.and_eq_true] at hp
        have he := hp.1
        simp only [tagOf, hbn]
        intro e
        simp [Node.isElement, e] at he


set_option maxRecDepth 100000 in
/-- C3 as stated fails: for the message "</span></div>" the close control ends up as a child of
the banner itself, so activating it removes the body from the document and leaves the banner
attached to the body. -/
theorem close_control_of_markup_message_removes_body :
    closeControls (showNotification samplePage "</span></div>" none).state 12 = [18]
    ∧ (closeClick (showNotification samplePage "</span></div>" none).state 18).error = none
    ∧ parentNode (closeClick (showNotification samplePage "</span></div>" none).state 18).state.nodes
        12 = some 2
    ∧ parentNode (closeClick (showNotification samplePage "</span></div>" none).state 18).state.nodes
        2 = none
    ∧ documentBody (closeClick (showNotification samplePage "</span></div>" none).state 18).state
        = none := by
  decide

/-- C3 amended: for a banner made by showNotification from a plain-text message, as long as
the banner and the nodes under it are as they were made (so the banner is still attached to the
body), activating its close control raises no error and removes that banner: the body loses the
banner from its children, the banner loses its parent link, and every other node, other
banners included, stays as it is. -/
theorem close_control_removes_banner (s : State) (m : String) (type : Option String)
    (body : Nat) (hm : isPlainText m = true) (hv : linksValid s = true)
    (hb : documentBody s = some body) :
    ∃ btn, closeControls (showNotification s m type).state s.nodes.length = [btn]
      ∧ ∀ s2 : State,
          (∀ j, s.nodes.length ≤ j → j < (showNotification s m type).state.nodes.length →
              s2.nodes[j]? = (showNotification s m type).state.nodes[j]?) →
          closeClick s2 btn
              = { state := { s2 with nodes := removeNode s2.nodes s.nodes.length },
                  defaultPrevented := false, error := none }
            ∧ (∀ bn, s2.nodes[body]? = some bn →
                (removeNode s2.nodes s.nodes.length)[body]?
                  = some { bn with children := bn.children.erase s.nodes.length })
            ∧ (∀ j, j ≠ body → j ≠ s.nodes.length →
                (removeNode s2.nodes s.nodes.length)[j]? = s2.nodes[j]?)
            ∧ parentNode (removeNode s2.nodes s.nodes.length) s.nodes.length = none := by
  rw [showNotification_plain s m type body hm hv hb]
  have hA : (modifyNode s.nodes body
      (fun n => { n with children := n.children ++ [s.nodes.length] })).length = s.nodes.length :=
    length_modifyNode _ _ _
  obtain ⟨btn, hcc, hlt, hp1, ht1, hp2, ht2, hp3, _, _, _⟩ :=
    banner_structure _ s.nodes.length body (type.getD "info") m hA
  have hbody := (documentBody_lt s body hb).1
  refine ⟨btn, hcc, ?_⟩
  intro s2 hkeep
  simp only [] at hkeep
  have k1 := hkeep btn (by omega) (parentNode_some_lt _ _ _ hp1)
  have k2 := hkeep (s.nodes.length + 2) (by omega) (parentNode_some_lt _ _ _ hp2)
  have k3 := hkeep s.nodes.length (Nat.le_refl _) (parentNode_some_lt _ _ _ hp3)
  have q3 : parentNode s2.nodes s.nodes.length = some body := by
    rw [parentNode_congr _ _ _ k3]; exact hp3
  have eff := removeNode_effect s2.nodes s.nodes.length body q3 (by omega)
  refine ⟨?_, eff.1, eff.2.1, eff.2.2.1⟩
  apply closeClick_chain s2 btn (s.nodes.length + 2) s.nodes.length
  · rw [parentNode_congr _ _ _ k1]; exact hp1
  · rw [tagOf_congr _ _ _ k2]; exact ht1
  · rw [parentNode_congr _ _ _ k2]; exact hp2
  · rw [tagOf_congr _ _ _ k3]; exact ht2

set_option maxRecDepth 100000 in
/-- The close control of the banner for "Saved successfully" on the sample page removes the banner. -/
theorem close_control_removes_banner_witness :
    ∃ btn, closeControls (showNotification samplePage "Saved successfully" (some "success")).state
              12 = [btn]
      ∧ (closeClick (showNotification samplePage "Saved successfully" (some "success")).state
            btn).error = none
      ∧ parentNode (closeClick (showNotification samplePage "Saved successfully"
            (some "success")).state btn).state.nodes 12 = none :=
  match close_control_removes_banner samplePage "Saved successfully" (some "success") 2
      (by decide) (by decide) (by decide) with
  | ⟨btn, h1, h2⟩ =>
    ⟨btn, h1, by rw [(h2 _ (fun _ _ _ => rfl)).1], by
      rw [(h2 _ (fun _ _ _ => rfl)).1]; exact (h2 _ (fun _ _ _ => rfl)).2.2.2⟩


/-- C6 at the failing input: the anchor with href "#1abc" is bound, an element with id "1abc"
is in the document, and the click ends in a SyntaxError after preventDefault, with no scroll. -/
theorem anchor_click_digit_id_throws :
    6 ∈ (domContentLoaded samplePage).anchors
    ∧ 11 ∈ descendants samplePage.nodes samplePage.doc
    ∧ (samplePage.nodes[11]?).bind (fun n => n.getAttribute "id") = some "1abc"
    ∧ anchorClick samplePage 6
        = some { state := samplePage, defaultPrevented := true, error := some JsError.syntaxError } := by
  decide

/-- C7 at the failing input: the anchor with href "#" is bound, and the click ends in a
SyntaxError after preventDefault. -/
theorem anchor_click_bare_hash_throws :
    5 ∈ (domContentLoaded samplePage).anchors
    ∧ (samplePage.nodes[5]?).bind (fun n => n.getAttribute "href") = some "#"
    ∧ anchorClick samplePage 5
        = some { state := samplePage, defaultPrevented := true, error := some JsError.syntaxError } := by
  decide

end LocalLink
